import Mathlib

/-!
Verification development for the MAVIC air battery helper firmware
(ManufacturerBlockAccess command layer).

The definitions below are a shallow embedding of `src/bqcmd.h`,
`src/bqcmd.cpp` and `src/utility.cpp`:

* machine bytes (`uint8_t`) and words (`uint16_t`) are modelled as `Nat`,
  with `% 256` (or `Int.emod 256`) inserted exactly where the C code
  truncates a wider value to `uint8_t`;
* the I2C bus (`Wire`) is modelled by its observable data: the result code
  of `endTransmission`, and the list of bytes buffered by `requestFrom`
  (the Arduino `Wire.requestFrom` is synchronous, so `Wire.available()`
  is constant afterwards; the 10-second polling loop therefore either
  exits at once or times out);
* the caller's stack buffer is modelled as a list `mem` that may be longer
  than the advertised capacity, so that writes past the capacity (adjacent
  stack memory in C) stay observable;
* `Serial` output that matters to the spec (the truncation advisory, the
  printed data block, the trailing blank line, the settle delays) is
  recorded in explicit outcome fields.
-/

/-- C macro `MANUFACTURER_BLOCK_ACCESS_COMMAND` from `bqcmd.h` (0x44). -/
def MANUFACTURER_BLOCK_ACCESS_COMMAND : Nat := 0x44

/-- C macro `SOFTWAREWIRE_BUFSIZE` from `bqcmd.h` (32, the Wire buffer limit). -/
def SOFTWAREWIRE_BUFSIZE : Nat := 32

/-- The `DisplayFormat` enum from `bqcmd.h`. -/
inductive DisplayFormat where
  | FORMAT_DECIMAL
  | FORMAT_HEX
  | FORMAT_BINARY
  | FORMAT_TEXT
  | FORMAT_MIXED
deriving DecidableEq

/-- The `BitFieldInfo` struct from `bqcmd.h`: one bit of a status word.
The four `const char*` fields are modelled as `String`: no entry of the
static tables is a null pointer, so the C null checks on `description`
and `inactiveValue` always take the non-null branch. -/
structure BitFieldInfo where
  bitIndex : Nat
  label : String
  description : String
  activeValue : String
  inactiveValue : String
deriving DecidableEq

/-- The `MBACommandInfo` struct from `bqcmd.h`: one catalog entry.
`data` is the fixed `uint8_t data[8]` array (zero-padded, as C aggregate
initialization does); `bitfields` is the nullable schema pointer. -/
structure MBACommandInfo where
  cmd : Nat
  data : List Nat
  dataLength : Nat
  name : String
  access : String
  displayFormat : DisplayFormat
  bitfields : Option (List BitFieldInfo)
  bitfieldCount : Nat
  description : String
deriving DecidableEq

/-- Arduino `lowByte`: least significant byte of a word. -/
def lowByte (w : Nat) : Nat := w % 256

/-- Arduino `highByte`: second least significant byte of a word. -/
def highByte (w : Nat) : Nat := (w / 256) % 256

/-- The byte sequence written on the bus by `sendMBACommand`
(`bqcmd.cpp` lines 57-71): command byte 0x44, the length byte
`2 + dataLength` (truncated to `uint8_t` by `Wire.write`), the sub-command
least-significant byte first, then `data[0..dataLength)`. -/
def sendFrame (cmdInfo : MBACommandInfo) : List Nat :=
  [MANUFACTURER_BLOCK_ACCESS_COMMAND,
   (2 + cmdInfo.dataLength) % 256,
   lowByte cmdInfo.cmd,
   highByte cmdInfo.cmd]
  ++ (List.range cmdInfo.dataLength).map (fun i => cmdInfo.data.getD i 0)

/-- `sendMBACommand` (`bqcmd.cpp` lines 57-87): writes `sendFrame` on the
bus and returns `true` exactly when `Wire.endTransmission()` reports 0.
The bus is modelled by the result code it returns; the written frame is
returned alongside the boolean so the wire format stays observable. -/
def sendMBACommand (cmdInfo : MBACommandInfo) (busResult : Nat) : List Nat × Bool :=
  (sendFrame cmdInfo, busResult == 0)

/-- One iteration body of the `reverseBufferEndian` loop
(`utility.cpp` lines 18-20): `temp = buffer[i]; buffer[i] = buffer[j];
buffer[j] = temp` with `j = bufferSize - 1 - i`. -/
def swapAt (mem : List Nat) (i j : Nat) : List Nat :=
  (mem.set i (mem.getD j 0)).set j (mem.getD i 0)

/-- The `for (i = 0; i < bufferSize / 2; ++i)` loop of
`reverseBufferEndian`, with `fuel` the number of remaining iterations. -/
def revLoopAux : Nat → Nat → Nat → List Nat → List Nat
  | 0, _, _, mem => mem
  | fuel + 1, i, n, mem => revLoopAux fuel (i + 1) n (swapAt mem i (n - 1 - i))

/-- `reverseBufferEndian` (`utility.cpp` lines 16-22): in-place byte-order
reversal of the first `bufferSize` bytes of the memory region `mem`.
`mem` may be longer than `bufferSize` (it is the caller's stack memory);
the C code trusts `bufferSize` and touches indices `0..bufferSize-1`. -/
def reverseBufferEndian (mem : List Nat) (bufferSize : Nat) : List Nat :=
  revLoopAux (bufferSize / 2) 0 bufferSize mem

/-- The buffer indices written by `reverseBufferEndian` when called with
size `n`: each iteration `i < n / 2` writes indices `i` and `n - 1 - i`. -/
def revWriteIndices (n : Nat) : List Nat :=
  (List.range (n / 2)).flatMap (fun i => [i, n - 1 - i])

/-- The `buffer[i] = Wire.read()` copy loop of `readMBACommand`
(`bqcmd.cpp` lines 186-188): writes the received bytes `src` into `mem`
starting at index `i`. -/
def copyLoop : List Nat → Nat → List Nat → List Nat
  | [], _, mem => mem
  | s :: ss, i, mem => copyLoop ss (i + 1) (mem.set i s)

/-- Failure classification of `readMBACommand`: non-zero bus result
(line 135), fewer than 3 bytes available (line 147), or the 10-second
polling timeout (line 160). -/
inductive ReadErr where
  | transport
  | insufficientData
  | timeout
deriving DecidableEq

/-- Observable outcome of `readMBACommand`: the returned boolean, the
failure kind if any, the final state of the caller's memory region, the
block passed to `printBuffer` (line 191), whether the truncation advisory
of line 170 was emitted, and the sequence of buffer indices written. -/
structure ReadOutcome where
  success : Bool
  err : Option ReadErr
  mem : List Nat
  printedBlock : List Nat
  truncWarning : Bool
  writes : List Nat
deriving DecidableEq

/-- `readMBACommand` (`bqcmd.cpp` lines 120-197). `endResult` is the code
returned by `Wire.endTransmission(false)`; `avail` is the byte sequence
buffered by `Wire.requestFrom` (at most `bufferSize` bytes on real
hardware); `mem` is the caller's memory region starting at `buffer`
(lists longer than `bufferSize` model the adjacent stack memory);
`bufferSize` is the advertised capacity. Availability is constant after
`requestFrom`, so the waiting loop of lines 159-167 exits immediately
when `avail.tail` already meets its bound and otherwise times out. -/
def readMBACommand (endResult : Nat) (avail : List Nat) (mem : List Nat)
    (bufferSize : Nat) : ReadOutcome :=
  if endResult != 0 then
    ⟨false, some .transport, mem, [], false, []⟩
  else if avail.length < 3 then
    ⟨false, some .insufficientData, mem, [], false, []⟩
  else
    let len := avail.headD 0
    let rest := avail.tail
    if rest.length < len && rest.length < SOFTWAREWIRE_BUFSIZE - 1 then
      ⟨false, some .timeout, mem, [], false, []⟩
    else
      let truncWarning := decide (len > bufferSize)
      let mem1 := copyLoop rest 0 mem
      let printedBlock := mem1.take (min rest.length len)
      let mem2 := reverseBufferEndian mem1 len
      ⟨true, none, mem2, printedBlock, truncWarning,
       List.range rest.length ++ revWriteIndices len⟩

/-- The byte-index computation of `printBitFields` (`utility.cpp` line 114):
`uint8_t byteIndex = (bitfieldsCount/8) - (bitIndex/8) - 1`. Both operands
are promoted to `int`, divided and subtracted there, and the result is
truncated back to `uint8_t`, hence the `Int` subtraction followed by
`emod 256`. -/
def bitFieldByteIndex (bitfieldsCount bitIndex : Nat) : Nat :=
  ((((bitfieldsCount : Int) / 8 - (bitIndex : Int) / 8 - 1) % 256)).toNat

/-- The bit extraction of `printBitFields` (`utility.cpp` lines 117-124):
`bitSet` is bit `bitIndex % 8` of `buffer[byteIndex]` when `byteIndex`
is below `bufferSize`, and stays `false` otherwise. -/
def bitFieldResolve (buffer : List Nat) (bufferSize : Nat) (count : Nat)
    (b : BitFieldInfo) : Bool :=
  if bitFieldByteIndex count b.bitIndex < bufferSize then
    (((buffer.getD (bitFieldByteIndex count b.bitIndex) 0) >>> (b.bitIndex % 8)) &&& 1) == 1
  else
    false

/-- The value text printed by `printBitFields` (`utility.cpp` lines
134-144): `"1 = activeValue"` when the bit is set, otherwise
`"0 = inactiveValue"` (the tables never hold a null `inactiveValue`,
so the `Inactive` fallback of line 142 is unreachable on this data). -/
def bitFieldText (b : BitFieldInfo) (bitSet : Bool) : String :=
  if bitSet then "1 = " ++ b.activeValue else "0 = " ++ b.inactiveValue

/-- `printBitFields` (`utility.cpp` lines 109-152): one line per processed
descriptor, giving the bit index, the label, the resolved value text and
the description. The loop reads `bitfields[i]` for `i < bitfieldsCount`. -/
def printBitFields (buffer : List Nat) (bufferSize : Nat)
    (bitfields : List BitFieldInfo) (bitfieldsCount : Nat) : List String :=
  (bitfields.take bitfieldsCount).map (fun b =>
    "Bit " ++ toString b.bitIndex ++ " (" ++ b.label ++ "): "
      ++ bitFieldText b (bitFieldResolve buffer bufferSize bitfieldsCount b)
      ++ " - " ++ b.description)

/-- The static `safetyAlertBits` table from `bqcmd.h` (lines 125-165). -/
def safetyAlertBits : List BitFieldInfo := [
  ⟨0, "CUV", "Cell Undervoltage", "Detected", "Not Detected"⟩,
  ⟨1, "COV", "Cell Overvoltage", "Detected", "Not Detected"⟩,
  ⟨2, "OCC1", "Overcurrent During Charge 1", "Detected", "Not Detected"⟩,
  ⟨3, "OCC2", "Overcurrent During Charge 2", "Detected", "Not Detected"⟩,
  ⟨4, "OCD1", "Overcurrent During Discharge 1", "Detected", "Not Detected"⟩,
  ⟨5, "OCD2", "Overcurrent During Discharge 2", "Detected", "Not Detected"⟩,
  ⟨6, "RSVD", "Reserved", "", ""⟩,
  ⟨7, "AOLDL", "Overload During Discharge Latch", "Detected", "Not Detected"⟩,
  ⟨8, "RSVD", "Reserved", "", ""⟩,
  ⟨9, "ASCCL", "Short-Circuit During Charge Latch", "Detected", "Not Detected"⟩,
  ⟨10, "RSVD", "Reserved", "", ""⟩,
  ⟨11, "ASCDL", "Short-Circuit During Discharge Latch", "Detected", "Not Detected"⟩,
  ⟨12, "OTC", "Overtemperature During Charge", "Detected", "Not Detected"⟩,
  ⟨13, "OTD", "Overtemperature During Discharge", "Detected", "Not Detected"⟩,
  ⟨14, "CUVC", "Cell Undervoltage Compensated", "Detected", "Not Detected"⟩,
  ⟨15, "RSVD", "Reserved", "", ""⟩,
  ⟨16, "OTF", "Overtemperature FET", "Detected", "Not Detected"⟩,
  ⟨17, "RSVD", "Reserved", "", ""⟩,
  ⟨18, "PTO", "Precharge Timeout", "Detected", "Not Detected"⟩,
  ⟨19, "PTOS", "Precharge Timeout Suspend", "Detected", "Not Detected"⟩,
  ⟨20, "CTO", "Charge Timeout", "Detected", "Not Detected"⟩,
  ⟨21, "CTOS", "Charge Timeout Suspend", "Detected", "Not Detected"⟩,
  ⟨22, "OC", "Overcharge", "Detected", "Not Detected"⟩,
  ⟨23, "CHGC", "Overcharging Current", "Detected", "Not Detected"⟩,
  ⟨24, "CHGV", "Overcharging Voltage", "Detected", "Not Detected"⟩,
  ⟨25, "PCHGC", "Over-Precharge Current", "Detected", "Not Detected"⟩,
  ⟨26, "UTC", "Undertemperature During Charge", "Detected", "Not Detected"⟩,
  ⟨27, "UTD", "Undertemperature During Discharge", "Detected", "Not Detected"⟩,
  ⟨28, "COVL", "Cell Overvoltage Latch", "Detected", "Not Detected"⟩,
  ⟨29, "OCDL", "Overcurrent in Discharge", "Detected", "Not Detected"⟩,
  ⟨30, "RSVD", "Reserved", "", ""⟩,
  ⟨31, "RSVD", "Reserved", "", ""⟩]

/-- The static `safetyStatusBits` table from `bqcmd.h` (lines 167-207). -/
def safetyStatusBits : List BitFieldInfo := [
  ⟨0, "CUV", "Cell Undervoltage", "Detected", "Not Detected"⟩,
  ⟨1, "COV", "Cell Overvoltage", "Detected", "Not Detected"⟩,
  ⟨2, "OCC1", "Overcurrent During Charge 1", "Detected", "Not Detected"⟩,
  ⟨3, "OCC2", "Overcurrent During Charge 2", "Detected", "Not Detected"⟩,
  ⟨4, "OCD1", "Overcurrent During Discharge 1", "Detected", "Not Detected"⟩,
  ⟨5, "OCD2", "Overcurrent During Discharge 2", "Detected", "Not Detected"⟩,
  ⟨6, "AOLD", "Overload During Discharge", "Detected", "Not Detected"⟩,
  ⟨7, "AOLDL", "Overload During Discharge Latch", "Detected", "Not Detected"⟩,
  ⟨8, "ASCC", "Short-circuit During Charge", "Detected", "Not Detected"⟩,
  ⟨9, "ASCCL", "Short-circuit During Charge Latch", "Detected", "Not Detected"⟩,
  ⟨10, "ASCD", "Short-circuit During Discharge", "Detected", "Not Detected"⟩,
  ⟨11, "ASCDL", "Short-circuit During Discharge Latch", "Detected", "Not Detected"⟩,
  ⟨12, "OTC", "Overtemperature During Charge", "Detected", "Not Detected"⟩,
  ⟨13, "OTD", "Overtemperature During Discharge", "Detected", "Not Detected"⟩,
  ⟨14, "CUVC", "Cell Undervoltage Compensated", "Detected", "Not Detected"⟩,
  ⟨15, "RSVD", "Reserved", "", ""⟩,
  ⟨16, "OTF", "Overtemperature FET", "Detected", "Not Detected"⟩,
  ⟨17, "RSVD", "Reserved", "", ""⟩,
  ⟨18, "PTO", "Precharge Timeout", "Detected", "Not Detected"⟩,
  ⟨19, "RSVD", "Reserved", "", ""⟩,
  ⟨20, "CTO", "Charge Timeout", "Detected", "Not Detected"⟩,
  ⟨21, "RSVD", "Reserved", "", ""⟩,
  ⟨22, "OC", "Overcharge", "Detected", "Not Detected"⟩,
  ⟨23, "CHGC", "Overcharging Current", "Detected", "Not Detected"⟩,
  ⟨24, "CHGV", "Overcharging Voltage", "Detected", "Not Detected"⟩,
  ⟨25, "PCHGC", "Over-Precharge Current", "Detected", "Not Detected"⟩,
  ⟨26, "UTC", "Undertemperature During Charge", "Detected", "Not Detected"⟩,
  ⟨27, "UTD", "Undertemperature During Discharge", "Detected", "Not Detected"⟩,
  ⟨28, "COVL", "Cell Overvoltage Latch", "Detected", "Not Detected"⟩,
  ⟨29, "OCDL", "Overcurrent in Discharge", "Detected", "Not Detected"⟩,
  ⟨30, "RSVD", "Reserved", "", ""⟩,
  ⟨31, "RSVD", "Reserved", "", ""⟩]

/-- The static `pfAlertBits` table from `bqcmd.h` (lines 209-249). -/
def pfAlertBits : List BitFieldInfo := [
  ⟨0, "SUV", "Safety Cell Undervoltage Failure", "Detected", "Not Detected"⟩,
  ⟨1, "SOV", "Safety Cell Overvoltage Failure", "Detected", "Not Detected"⟩,
  ⟨2, "SOCC", "Safety Overcurrent in Charge", "Detected", "Not Detected"⟩,
  ⟨3, "SOCD", "Safety Overcurrent in Discharge", "Detected", "Not Detected"⟩,
  ⟨4, "SOT", "Safety Overtemperature Cell Failure", "Detected", "Not Detected"⟩,
  ⟨5, "COVL", "Cell Overvoltage Latch", "Detected", "Not Detected"⟩,
  ⟨6, "SOTF", "Safety Overtemperature FET Failure", "Detected", "Not Detected"⟩,
  ⟨7, "QIM", "QMax Imbalance Failure", "Detected", "Not Detected"⟩,
  ⟨8, "CB", "Cell Balancing Failure", "Detected", "Not Detected"⟩,
  ⟨9, "IMP", "Impedance Failure", "Detected", "Not Detected"⟩,
  ⟨10, "CD", "Capacity Degradation Failure", "Detected", "Not Detected"⟩,
  ⟨11, "VIMR", "Voltage Imbalance At Rest", "Detected", "Not Detected"⟩,
  ⟨12, "VIMA", "Voltage Imbalance While Active", "Detected", "Not Detected"⟩,
  ⟨13, "AOLDL", "Overload in Discharge", "Detected", "Not Detected"⟩,
  ⟨14, "ASCCL", "Short Circuit in Charge", "Detected", "Not Detected"⟩,
  ⟨15, "ASCDL", "Short Circuit in Discharge", "Detected", "Not Detected"⟩,
  ⟨16, "CFETF", "Charge FET Failure", "Detected", "Not Detected"⟩,
  ⟨17, "DFETF", "Discharge FET Failure", "Detected", "Not Detected"⟩,
  ⟨18, "OCDL", "Overcurrent in Discharge", "Detected", "Not Detected"⟩,
  ⟨19, "FUSE", "Chemical Fuse Failure", "Detected", "Not Detected"⟩,
  ⟨20, "AFER", "AFE Register Failure", "Detected", "Not Detected"⟩,
  ⟨21, "AFEC", "AFE Communication Failure", "Detected", "Not Detected"⟩,
  ⟨22, "2LVL", "Second Level Protector Failure", "Detected", "Not Detected"⟩,
  ⟨23, "RSVD", "Reserved", "", ""⟩,
  ⟨24, "RSVD", "Reserved", "", ""⟩,
  ⟨25, "RSVD", "Reserved", "", ""⟩,
  ⟨26, "RSVD", "Reserved", "", ""⟩,
  ⟨27, "RSVD", "Reserved", "", ""⟩,
  ⟨28, "TS1", "Open Thermistor TS1 Failure", "Detected", "Not Detected"⟩,
  ⟨29, "TS2", "Open Thermistor TS2 Failure", "Detected", "Not Detected"⟩,
  ⟨30, "TS3", "Open Thermistor TS3 Failure", "Detected", "Not Detected"⟩,
  ⟨31, "TS4", "Open Thermistor TS4 Failure", "Detected", "Not Detected"⟩]

/-- The static `operationStatusBits` table from `bqcmd.h` (lines 293-333). -/
def operationStatusBits : List BitFieldInfo := [
  ⟨0, "PRES", "System Present (low)", "Active", "Inactive"⟩,
  ⟨1, "DSG", "Discharge FET status", "Active", "Inactive"⟩,
  ⟨2, "CHG", "Charge FET status", "Active", "Inactive"⟩,
  ⟨3, "PCHG", "Precharge FET status", "Active", "Inactive"⟩,
  ⟨4, "RSVD", "Reserved", "", ""⟩,
  ⟨5, "FUSE", "Fuse status", "Active", "Inactive"⟩,
  ⟨6, "RSVD", "Reserved", "", ""⟩,
  ⟨7, "BTP_INT", "Battery Trip Point Interrupt", "Active", "Inactive"⟩,
  ⟨8, "SEC0", "Security Mode Bit 0 (00-Reserved 01-FullAccess 10-Unsealed 11-Sealed)", "", ""⟩,
  ⟨9, "SEC1", "Security Mode Bit 1 (00-Reserved 01-FullAccess 10-Unsealed 11-Sealed)", "", ""⟩,
  ⟨10, "SDV", "Shutdown due to low pack voltage", "Active", "Inactive"⟩,
  ⟨11, "SS", "Safety Status (OR of all safety bits)", "Active", "Inactive"⟩,
  ⟨12, "PF", "Permanent Failure mode", "Active", "Inactive"⟩,
  ⟨13, "XDSG", "Discharging disabled", "Active", "Inactive"⟩,
  ⟨14, "XCHG", "Charging disabled", "Active", "Inactive"⟩,
  ⟨15, "SLEEP", "Sleep mode conditions met", "Active", "Inactive"⟩,
  ⟨16, "SDM", "Shutdown via command", "Active", "Inactive"⟩,
  ⟨17, "LED", "LED Display status", "On", "Off"⟩,
  ⟨18, "AUTH", "Authentication in progress", "Active", "Inactive"⟩,
  ⟨19, "CALM", "Auto CC Offset Calibration (MAC)", "Active", "Inactive"⟩,
  ⟨20, "CAL", "Calibration output (ADC/CC)", "Available", "Not available"⟩,
  ⟨21, "CAL_OFFSET", "Calibration Output (Shorted CC)", "Available", "Not available"⟩,
  ⟨22, "XL", "400-kHz SMBus mode", "Active", "Inactive"⟩,
  ⟨23, "SLEEPM", "SLEEP mode via command", "Active", "Inactive"⟩,
  ⟨24, "INIT", "Initialization after full reset", "Active", "Inactive"⟩,
  ⟨25, "SMBLCAL", "Auto CC Calibration (bus low)", "Started", "Not started"⟩,
  ⟨26, "SLPAD", "ADC Measurement in Sleep", "Active", "Inactive"⟩,
  ⟨27, "SLPCC", "CC Measurement in Sleep", "Active", "Inactive"⟩,
  ⟨28, "CB", "Cell Balancing status", "Active", "Inactive"⟩,
  ⟨29, "EMSHUT", "Emergency FET Shutdown", "Active", "Inactive"⟩,
  ⟨30, "RSVD", "Reserved", "", ""⟩,
  ⟨31, "RSVD", "Reserved", "", ""⟩]

/-- The static `ManufacturingStatusBits` table from `bqcmd.h` (lines 335-355). -/
def ManufacturingStatusBits : List BitFieldInfo := [
  ⟨0, "PCHG", "Precharge FET Test.", "Active", "Disabled"⟩,
  ⟨1, "CHG", "Charge FET Test.", "Active", "Disabled"⟩,
  ⟨2, "DSG", "Discharge FET Test.", "Active", "Disabled"⟩,
  ⟨3, "GAUGE", "Gas Gauging.", "Enabled", "Disabled"⟩,
  ⟨4, "FET", "All FET Action.", "Enabled", "Disabled"⟩,
  ⟨5, "LF", "Lifetime data collection.", "Enabled", "Disabled"⟩,
  ⟨6, "PF", "Permanent Failure functionality.", "Enabled", "Disabled"⟩,
  ⟨7, "BBR", "Black box recorder.", "Enabled", "Disabled"⟩,
  ⟨8, "FUSE", "FUSE action.", "Enabled", "Disabled"⟩,
  ⟨9, "LED", "LED Display.", "On", "Off"⟩,
  ⟨10, "RSVD", "Reserved", "Enabled", "Disabled"⟩,
  ⟨11, "RSVD", "Reserved", "Enabled", "Disabled"⟩,
  ⟨12, "RSVD", "Reserved", "Enabled", "Disabled"⟩,
  ⟨13, "RSVD", "Reserved", "Enabled", "Disabled"⟩,
  ⟨14, "LT_TS", "Lifetime Speed Up mode.", "Enabled", "Disabled"⟩,
  ⟨15, "CALTS", "CAL ADC or CC output on ManufacturerData().", "Enabled", "Disabled"⟩]

/-- The static `pfStatusBits` table from `bqcmd.h` (lines 251-291). -/
def pfStatusBits : List BitFieldInfo := [
  ⟨0, "SUV", "Safety Cell Undervoltage Failure", "Detected", "Not Detected"⟩,
  ⟨1, "SOV", "Safety Cell Overvoltage Failure", "Detected", "Not Detected"⟩,
  ⟨2, "SOCC", "Safety Overcurrent in Charge", "Detected", "Not Detected"⟩,
  ⟨3, "SOCD", "Safety Overcurrent in Discharge", "Detected", "Not Detected"⟩,
  ⟨4, "SOT", "Safety Overtemperature Cell Failure", "Detected", "Not Detected"⟩,
  ⟨5, "COVL", "Cell Overvoltage Latch", "Detected", "Not Detected"⟩,
  ⟨6, "SOTF", "Safety Overtemperature FET Failure", "Detected", "Not Detected"⟩,
  ⟨7, "QIM", "QMax Imbalance Failure", "Detected", "Not Detected"⟩,
  ⟨8, "CB", "Cell Balancing Failure", "Detected", "Not Detected"⟩,
  ⟨9, "IMP", "Impedance Failure", "Detected", "Not Detected"⟩,
  ⟨10, "CD", "Capacity Degradation Failure", "Detected", "Not Detected"⟩,
  ⟨11, "VIMR", "Voltage Imbalance At Rest", "Detected", "Not Detected"⟩,
  ⟨12, "VIMA", "Voltage Imbalance While Active", "Detected", "Not Detected"⟩,
  ⟨13, "AOLDL", "Overload in Discharge", "Detected", "Not Detected"⟩,
  ⟨14, "ASCCL", "Short Circuit in Charge", "Detected", "Not Detected"⟩,
  ⟨15, "ASCDL", "Short Circuit in Discharge", "Detected", "Not Detected"⟩,
  ⟨16, "CFETF", "Charge FET Failure", "Detected", "Not Detected"⟩,
  ⟨17, "DFETF", "Discharge FET Failure", "Detected", "Not Detected"⟩,
  ⟨18, "OCDL", "Overcurrent in Discharge", "Detected", "Not Detected"⟩,
  ⟨19, "FUSE", "Chemical Fuse Failure", "Detected", "Not Detected"⟩,
  ⟨20, "AFER", "AFE Register Failure", "Detected", "Not Detected"⟩,
  ⟨21, "AFEC", "AFE Communication Failure", "Detected", "Not Detected"⟩,
  ⟨22, "2LVL", "Second Level Protector Failure", "Detected", "Not Detected"⟩,
  ⟨23, "PTC", "PTC Failure", "Detected", "Not Detected"⟩,
  ⟨24, "IFC", "Instruction Flash Checksum Failure", "Detected", "Not Detected"⟩,
  ⟨25, "RSVD", "Reserved", "", ""⟩,
  ⟨26, "DFW", "Data Flash Wearout Failure", "Detected", "Not Detected"⟩,
  ⟨27, "RSVD", "Reserved", "", ""⟩,
  ⟨28, "TS1", "Open Thermistor TS1 Failure", "Detected", "Not Detected"⟩,
  ⟨29, "TS2", "Open Thermistor TS2 Failure", "Detected", "Not Detected"⟩,
  ⟨30, "TS3", "Open Thermistor TS3 Failure", "Detected", "Not Detected"⟩,
  ⟨31, "TS4", "Open Thermistor TS4 Failure", "Detected", "Not Detected"⟩]

/-- The static `MBACommandsInfo` catalog from `bqcmd.h` (lines 358-379).
Field order as in the struct: cmd, data (the 8-byte array, zero padded),
dataLength, name, access, displayFormat, bitfields, bitfieldCount,
description; a `NULL` bitfields pointer is `none`. -/
def MBACommandsInfo : List MBACommandInfo := [
  ⟨0x0001, List.replicate 8 0, 0, "DeviceType", "R", .FORMAT_HEX, none, 0,
    "Identifies the battery device type to verify model and family compatibility."⟩,
  ⟨0x0002, List.replicate 8 0, 0, "FirmwareVersion", "R", .FORMAT_HEX, none, 0,
    "Reports the firmware version running on the battery controller, useful for compatibility and updates."⟩,
  ⟨0x0003, List.replicate 8 0, 0, "HardwareVersion", "R", .FORMAT_HEX, none, 0,
    "Indicates the hardware revision of the device to identify physical variations or improvements."⟩,
  ⟨0x0024, List.replicate 8 0, 0, "PermanentFailure", "W", .FORMAT_HEX, none, 0,
    "This command enables/disables Permanent Failure to help streamline production testing."⟩,
  ⟨0x0028, List.replicate 8 0, 0, "LifetimeDataReset", "W", .FORMAT_HEX, none, 0,
    "Resets accumulated lifetime data such as cycle count and usage statistics."⟩,
  ⟨0x0029, List.replicate 8 0, 0, "PermanentFailureDataReset", "W", .FORMAT_HEX, none, 0,
    "Resets permanent failure data flags to clear fault status."⟩,
  ⟨0x002A, List.replicate 8 0, 0, "BlackBoxRecorderReset", "W", .FORMAT_HEX, none, 0,
    "Resets the black box event recorder to clear logged fault history."⟩,
  ⟨0x0030, List.replicate 8 0, 0, "SealDevice", "W", .FORMAT_HEX, none, 0,
    "Seals the device to prevent further modifications to configuration or data."⟩,
  ⟨0x0041, List.replicate 8 0, 0, "DeviceReset", "W", .FORMAT_HEX, none, 0,
    "Command to reset the device, reinitializing all registers and states."⟩,
  ⟨0x0050, List.replicate 8 0, 0, "SafetyAlert", "R", .FORMAT_BINARY, some safetyAlertBits, 32,
    "Returns current safety alert flags indicating critical conditions such as overvoltage or overtemperature."⟩,
  ⟨0x0051, List.replicate 8 0, 0, "SafetyStatus", "R", .FORMAT_BINARY, some safetyStatusBits, 32,
    "Reports the current safety status of the device, showing ongoing safety-related events."⟩,
  ⟨0x0052, List.replicate 8 0, 0, "PFAlert", "R", .FORMAT_BINARY, some pfAlertBits, 32,
    "Indicates permanent failure alerts that require immediate attention or servicing."⟩,
  ⟨0x0053, List.replicate 8 0, 0, "PFStatus", "R", .FORMAT_BINARY, some pfStatusBits, 32,
    "Reports the status of permanent failure flags for battery health monitoring."⟩,
  ⟨0x0054, List.replicate 8 0, 0, "OperationStatus", "R", .FORMAT_BINARY, some operationStatusBits, 32,
    "General operational status reporting the current mode and condition of the device."⟩,
  ⟨0x0057, List.replicate 8 0, 0, "ManufacturingStatus", "R", .FORMAT_BINARY, some ManufacturingStatusBits, 16,
    "Contains informations about activated modes (PF, etc ..)"⟩,
  ⟨0x7EE0, List.replicate 8 0, 0, "UnsealKey1", "W", .FORMAT_HEX, none, 0,
    "Key to change security mode from SEALED to UNSEALED 1/2. The two words must be sent within 4 s."⟩,
  ⟨0xCCDF, List.replicate 8 0, 0, "UnsealKey2", "W", .FORMAT_HEX, none, 0,
    "Key to change security mode from SEALED to UNSEALED 2/2. The two words must be sent within 4 s."⟩,
  ⟨0x4062, List.replicate 8 0, 0, "PF2RegisterRead", "R", .FORMAT_HEX, none, 0,
    "Custom DJI register key where we can find the PF2 flag."⟩,
  ⟨0x4062, [0x01, 0x23, 0x45, 0x67, 0, 0, 0, 0], 4, "ClearPF2", "W", .FORMAT_HEX, none, 0,
    "Overwrite the custom DJI register key where we can find the PF2 flag."⟩]

/-- `getMBACommandInfoByName` (`bqcmd.cpp` lines 21-37): a null input
gives `NULL`; otherwise the first catalog entry whose `name` field
compares equal under `strcmp` (exact, case-sensitive) is returned,
`NULL` when none matches. The nullable `const char*` argument is
modelled as `Option String`, the null result as `none`. -/
def getMBACommandInfoByName (name : Option String) : Option MBACommandInfo :=
  match name with
  | none => none
  | some n => MBACommandsInfo.find? (fun c => c.name == n)

/-- Observable outcome of `runMBACommand`: the returned boolean, whether
the trailing blank line (`Serial.println()`) was emitted, whether the
100 ms settle delay of line 252 ran, the frame handed to
`sendMBACommand` if the catalog lookup succeeded, whether the read phase
(`readMBACommand`) was invoked, and whether `printBitFields` ran. -/
structure RunOutcome where
  ok : Bool
  blankLine : Bool
  delay100 : Bool
  sentFrame : Option (List Nat)
  readPerformed : Bool
  decoded : Bool
deriving DecidableEq

/-- `runMBACommand` (`bqcmd.cpp` lines 213-254). `cmdName` is the
nullable name argument, `sendResult` the bus code for the write phase,
`readEndResult` and `avail` the bus state for the read phase. The local
`uint8_t buffer[SOFTWAREWIRE_BUFSIZE]` (uninitialized stack storage in C)
is modelled as zeros; the write-only test is the source's
`cmdInfo->access != "W"` comparison, which on this single translation
unit is literal-equality of the pooled `"W"` string. -/
def runMBACommand (cmdName : Option String) (sendResult : Nat)
    (readEndResult : Nat) (avail : List Nat) : RunOutcome :=
  match getMBACommandInfoByName cmdName with
  | none => ⟨false, true, false, none, false, false⟩
  | some cmdInfo =>
    if !(sendMBACommand cmdInfo sendResult).2 then
      ⟨false, true, false, some (sendFrame cmdInfo), false, false⟩
    else if cmdInfo.access != "W" then
      let r := readMBACommand readEndResult avail
        (List.replicate SOFTWAREWIRE_BUFSIZE 0) SOFTWAREWIRE_BUFSIZE
      if !r.success then
        ⟨false, true, false, some (sendFrame cmdInfo), true, false⟩
      else
        ⟨true, true, true, some (sendFrame cmdInfo), true,
         cmdInfo.bitfields.isSome && decide (0 < cmdInfo.bitfieldCount)⟩
    else
      ⟨true, true, true, some (sendFrame cmdInfo), false, false⟩

/-! ## Helper lemmas -/

/-- Rewriting a `getD` index. -/
theorem getD_congr (l : List Nat) (a b : Nat) (h : a = b) :
    l.getD a 0 = l.getD b 0 := by rw [h]

/-- `swapAt` preserves the length of the memory region. -/
theorem swapAt_length (mem : List Nat) (i j : Nat) :
    (swapAt mem i j).length = mem.length := by
  simp [swapAt]

/-- Pointwise description of `swapAt` for in-range positions. -/
theorem swapAt_getD (mem : List Nat) (i j k : Nat)
    (hi : i < mem.length) (hj : j < mem.length) :
    (swapAt mem i j).getD k 0 =
      if k = j then mem.getD i 0 else if k = i then mem.getD j 0 else mem.getD k 0 := by
  simp only [swapAt, List.getD_eq_getElem?_getD, List.getElem?_set, List.length_set]
  split_ifs <;> first | rfl | omega

/-- The reversal loop preserves the length of the memory region. -/
theorem revLoopAux_length (fuel : Nat) :
    ∀ (i n : Nat) (mem : List Nat), (revLoopAux fuel i n mem).length = mem.length := by
  induction fuel with
  | zero => intro i n mem; rfl
  | succ f ih => intro i n mem; rw [revLoopAux, ih, swapAt_length]

/-- Pointwise description of the reversal loop: positions between the two
moving cursors are mirrored, positions already passed are left as they
were at loop entry. -/
theorem revLoopAux_getD (fuel : Nat) :
    ∀ (i n : Nat) (mem : List Nat), mem.length = n → fuel + i = n / 2 →
    ∀ k, k < n →
      (revLoopAux fuel i n mem).getD k 0 =
        if i ≤ k ∧ k < n - i then mem.getD (n - 1 - k) 0 else mem.getD k 0 := by
  induction fuel with
  | zero =>
    intro i n mem hlen hfi k hk
    show mem.getD k 0 = _
    split
    case isTrue h => exact getD_congr mem k (n - 1 - k) (by omega)
    case isFalse h => rfl
  | succ f ih =>
    intro i n mem hlen hfi k hk
    rw [revLoopAux]
    have hlen' : (swapAt mem i (n - 1 - i)).length = n := by rw [swapAt_length, hlen]
    rw [ih (i + 1) n _ hlen' (by omega) k hk]
    rw [swapAt_getD mem i (n - 1 - i) (n - 1 - k) (by omega) (by omega),
        swapAt_getD mem i (n - 1 - i) k (by omega) (by omega)]
    split_ifs <;> exact getD_congr mem _ _ (by omega)

/-- `reverseBufferEndian` applied to its whole region is `List.reverse`. -/
theorem reverseBufferEndian_eq_reverse (mem : List Nat) :
    reverseBufferEndian mem mem.length = mem.reverse := by
  apply List.ext_getElem
  · rw [reverseBufferEndian, revLoopAux_length, List.length_reverse]
  · intro k h1 h2
    have hk : k < mem.length := by
      simpa [reverseBufferEndian, revLoopAux_length] using h1
    have hmain := revLoopAux_getD (mem.length / 2) 0 mem.length mem rfl (by omega) k hk
    rw [if_pos ⟨Nat.zero_le k, by omega⟩] at hmain
    rw [← List.getD_eq_getElem _ 0 h1, ← List.getD_eq_getElem _ 0 h2]
    unfold reverseBufferEndian
    rw [hmain]
    rw [List.getD_eq_getElem _ 0 h2, List.getElem_reverse,
        ← List.getD_eq_getElem _ 0 (by omega : mem.length - 1 - k < mem.length)]

/-- Under the conditions the catalog schemas satisfy (bit index below the
declared count, count a multiple of 8 and a `uint8_t` value), the
wrapped `uint8_t` byte-index computation agrees with the plain natural
subtraction `count / 8 - bitIndex / 8 - 1`. -/
theorem bitFieldByteIndex_eq (count idx : Nat)
    (h1 : idx < count) (h2 : count % 8 = 0) (h3 : count < 256) :
    bitFieldByteIndex count idx = count / 8 - idx / 8 - 1 := by
  unfold bitFieldByteIndex
  omega

/-- `List.find?` returns the entry at position `i` when it satisfies the
predicate and every earlier entry does not. -/
theorem find?_first_hit {α : Type} (p : α → Bool) :
    ∀ (l : List α) (i : Nat) (h : i < l.length),
      p (l.get ⟨i, h⟩) = true →
      (∀ (j : Nat) (hj : j < l.length), j < i → p (l.get ⟨j, hj⟩) = false) →
      l.find? p = some (l.get ⟨i, h⟩) := by
  intro l
  induction l with
  | nil => intro i h; simp at h
  | cons a t ih =>
    intro i h hp hprev
    cases i with
    | zero =>
      have hpa : p a = true := hp
      rw [List.find?_cons, hpa]
      rfl
    | succ i =>
      have ha : p a = false := hprev 0 (by simp) (by omega)
      rw [List.find?_cons, ha]
      exact ih i (by simpa using h) hp
        (fun j hj hji => hprev (j + 1) (Nat.succ_lt_succ hj) (by omega))

/-! ## Claim theorems -/

/-- C1 (counterexample): for the read of `DeviceType` with device response
bytes `[02, 01, 00, 0A, 0B]`, the receive operation does succeed, but the
block it yields is the echoed sub-command `01 00`, not the payload
`0A 0B`, and after the endianness reversal the caller's buffer begins
`00 01`, not `0B 0A`: the claimed payload and reversed bytes are wrong. -/
theorem deviceTypeScenario_counterexample :
    (readMBACommand 0 [0x02, 0x01, 0x00, 0x0A, 0x0B] (List.replicate 32 0) 32).success
        = true ∧
    (readMBACommand 0 [0x02, 0x01, 0x00, 0x0A, 0x0B] (List.replicate 32 0) 32).printedBlock
        ≠ [0x0A, 0x0B] ∧
    (readMBACommand 0 [0x02, 0x01, 0x00, 0x0A, 0x0B] (List.replicate 32 0) 32).mem.take 2
        ≠ [0x0B, 0x0A] := by
  decide

/-- C1 (amended): with response bytes `[02, 01, 00, 0A, 0B]` the receive
operation succeeds; all four post-length bytes `01 00 0A 0B` are copied
into the buffer, the block reported is the first `len = 2` of them (the
echoed sub-command `01 00`), and the reversal flips only those first two
bytes, so the buffer starts `00 01` with the payload `0A 0B` left
unreversed at offsets 2-3. -/
theorem deviceTypeScenario_actual :
    readMBACommand 0 [0x02, 0x01, 0x00, 0x0A, 0x0B] (List.replicate 32 0) 32 =
      ⟨true, none, [0x00, 0x01, 0x0A, 0x0B] ++ List.replicate 28 0,
       [0x01, 0x00], false, [0, 1, 2, 3, 0, 1]⟩ := by
  decide

/-- C2 (code evaluated at the failing input): when the device declares
`len = 40` and 31 further bytes are available against a 32-byte buffer,
the read proceeds and emits the truncation advisory, but the final
`reverseBufferEndian(buffer, 40)` writes index 39 - past the 32-byte
capacity - and moves received data into the adjacent memory cell. -/
theorem truncatedRead_writes_past_capacity :
    (readMBACommand 0 (0x28 :: List.replicate 31 0xAA) (List.replicate 40 0) 32).success
        = true ∧
    (readMBACommand 0 (0x28 :: List.replicate 31 0xAA) (List.replicate 40 0) 32).truncWarning
        = true ∧
    39 ∈ (readMBACommand 0 (0x28 :: List.replicate 31 0xAA) (List.replicate 40 0) 32).writes ∧
    (readMBACommand 0 (0x28 :: List.replicate 31 0xAA) (List.replicate 40 0) 32).mem.getD 39 0
        = 0xAA := by
  decide

/-- C6: whenever fewer than 3 bytes are immediately available after the
read request (with the preceding repeated-start transmission succeeding),
`readMBACommand` reports the no-data error and returns `false` without
reaching the polling loop, copying nothing and leaving the buffer
untouched. -/
theorem readMBACommand_insufficientData :
    ∀ (avail mem : List Nat) (bufferSize : Nat), avail.length < 3 →
      readMBACommand 0 avail mem bufferSize =
        ⟨false, some .insufficientData, mem, [], false, []⟩ := by
  intro avail mem bufferSize h
  simp [readMBACommand, h]

/-- C6 witness: a concrete two-byte response window. -/
theorem readMBACommand_insufficientData_witness :
    readMBACommand 0 [1, 2] [5, 6] 32 =
      ⟨false, some .insufficientData, [5, 6], [], false, []⟩ :=
  readMBACommand_insufficientData [1, 2] [5, 6] 32 (by decide)

/-- C7: every catalog descriptor has payload length at most 8, and the
frame written by the send operation is
`[0x44][2 + payloadLength][subcmd LSB][subcmd MSB][payload bytes]`,
with no `uint8_t` wrap in the length byte or the high command byte. -/
theorem sendFrame_wire_format :
    ∀ c ∈ MBACommandsInfo, c.dataLength ≤ 8 ∧
      sendFrame c = [0x44, 2 + c.dataLength, c.cmd % 256, c.cmd / 256]
        ++ c.data.take c.dataLength := by
  decide

/-- C7 witness: the `ClearPF2` descriptor (the one with a payload). -/
theorem sendFrame_wire_format_witness :
    (MBACommandsInfo.get ⟨18, by decide⟩).dataLength ≤ 8 ∧
    sendFrame (MBACommandsInfo.get ⟨18, by decide⟩) =
      [0x44, 2 + (MBACommandsInfo.get ⟨18, by decide⟩).dataLength,
       (MBACommandsInfo.get ⟨18, by decide⟩).cmd % 256,
       (MBACommandsInfo.get ⟨18, by decide⟩).cmd / 256]
      ++ (MBACommandsInfo.get ⟨18, by decide⟩).data.take
          (MBACommandsInfo.get ⟨18, by decide⟩).dataLength :=
  sendFrame_wire_format (MBACommandsInfo.get ⟨18, by decide⟩) (by decide)

/-- C8: byte-order reversal over the whole buffer is an involution, and
on an odd-length buffer the middle byte is left unchanged. -/
theorem reverseBufferEndian_involution :
    (∀ buf : List Nat,
        reverseBufferEndian (reverseBufferEndian buf buf.length) buf.length = buf) ∧
    (∀ buf : List Nat, buf.length % 2 = 1 →
        (reverseBufferEndian buf buf.length).getD (buf.length / 2) 0 =
          buf.getD (buf.length / 2) 0) := by
  constructor
  · intro buf
    rw [reverseBufferEndian_eq_reverse buf]
    rw [show buf.length = buf.reverse.length from (List.length_reverse buf).symm]
    rw [reverseBufferEndian_eq_reverse buf.reverse, List.reverse_reverse]
  · intro buf hodd
    have hk : buf.length / 2 < buf.length := by omega
    have h := revLoopAux_getD (buf.length / 2) 0 buf.length buf rfl (by omega)
      (buf.length / 2) hk
    rw [if_pos ⟨Nat.zero_le _, by omega⟩] at h
    unfold reverseBufferEndian
    rw [h]
    exact getD_congr buf _ _ (by omega)

/-- C8 witness: the three-byte buffer `[1, 2, 3]`. -/
theorem reverseBufferEndian_involution_witness :
    reverseBufferEndian (reverseBufferEndian [1, 2, 3] 3) 3 = [1, 2, 3] ∧
    (reverseBufferEndian [1, 2, 3] 3).getD 1 0 = 2 := by
  refine ⟨reverseBufferEndian_involution.1 [1, 2, 3], ?_⟩
  exact (reverseBufferEndian_involution.2 [1, 2, 3] (by decide)).trans (by decide)

/-- C9: in every catalog entry that references a bit-field schema, the
schema's bit indices are pairwise distinct and the entry's declared
`bitfieldCount` equals the number of entries of the schema array
(entries with no schema carry count 0). -/
theorem schema_counts_and_distinct_indices :
    ∀ c ∈ MBACommandsInfo,
      ((c.bitfields.getD []).map (fun b => b.bitIndex)).Nodup ∧
      c.bitfieldCount = (c.bitfields.getD []).length := by
  decide

/-- C9 witness: the `ManufacturingStatus` entry and its 16-bit schema. -/
theorem schema_counts_and_distinct_indices_witness :
    (((MBACommandsInfo.get ⟨14, by decide⟩).bitfields.getD []).map
        (fun b => b.bitIndex)).Nodup ∧
    (MBACommandsInfo.get ⟨14, by decide⟩).bitfieldCount =
      ((MBACommandsInfo.get ⟨14, by decide⟩).bitfields.getD []).length :=
  schema_counts_and_distinct_indices (MBACommandsInfo.get ⟨14, by decide⟩) (by decide)

/-- C5: for a bit descriptor with index below the schema's declared count
(a multiple of 8 fitting a `uint8_t`, as all catalog schemas are), the
decoder reads bit `bitIndex mod 8` of the buffer byte at
`count / 8 - bitIndex / 8 - 1` when that index is inside the supplied
buffer length, and resolves the bit as unset - rendering the inactive
text - when that index falls outside the buffer length; for a 32-bit
schema, bit 0 maps to byte 3 (the last of a 4-byte buffer) and bit 31 to
byte 0, and for a 16-bit schema bit 0 maps to byte 1. -/
theorem printBitFields_byte_mapping :
    (∀ (buffer : List Nat) (bufferSize count : Nat) (b : BitFieldInfo),
        b.bitIndex < count → count % 8 = 0 → count < 256 →
        (count / 8 - b.bitIndex / 8 - 1 < bufferSize →
            bitFieldResolve buffer bufferSize count b =
              ((((buffer.getD (count / 8 - b.bitIndex / 8 - 1) 0) >>>
                  (b.bitIndex % 8)) &&& 1) == 1)) ∧
        (bufferSize ≤ count / 8 - b.bitIndex / 8 - 1 →
            bitFieldResolve buffer bufferSize count b = false ∧
            bitFieldText b (bitFieldResolve buffer bufferSize count b) =
              "0 = " ++ b.inactiveValue)) ∧
    bitFieldByteIndex 32 0 = 3 ∧ bitFieldByteIndex 32 31 = 0 ∧
    bitFieldByteIndex 16 0 = 1 := by
  refine ⟨?_, by decide, by decide, by decide⟩
  intro buffer bufferSize count b hb h8 h256
  have hidx := bitFieldByteIndex_eq count b.bitIndex hb h8 h256
  constructor
  · intro hlt
    rw [bitFieldResolve, hidx, if_pos hlt]
  · intro hge
    have hres : bitFieldResolve buffer bufferSize count b = false := by
      rw [bitFieldResolve, hidx, if_neg (by omega)]
    exact ⟨hres, by rw [hres, bitFieldText, if_neg (by simp)]⟩

/-- C5 witness: a 32-bit schema over a 4-byte buffer, bit 0 set in the
last byte. -/
theorem printBitFields_byte_mapping_witness :
    bitFieldResolve [0, 0, 0, 1] 4 32
        ⟨0, "CUV", "Cell Undervoltage", "Detected", "Not Detected"⟩ =
      (((([0, 0, 0, 1] : List Nat).getD (32 / 8 - 0 / 8 - 1) 0) >>> (0 % 8)) &&& 1
        == 1) :=
  (printBitFields_byte_mapping.1 [0, 0, 0, 1] 4 32
      ⟨0, "CUV", "Cell Undervoltage", "Detected", "Not Detected"⟩
      (by decide) (by decide) (by decide)).1 (by decide)

/-- C10: the catalog lookup is an exact, case-sensitive first-match scan:
a null input gives not-found, a name matching no entry gives not-found,
the entry at position `i` is returned whenever it matches and no earlier
entry does, a name differing from a catalog name only in case is not
found, and `DeviceType` resolves to the first catalog entry. (The lookup
is a pure function of its argument, hence deterministic.) -/
theorem getMBACommandInfoByName_exact_first :
    getMBACommandInfoByName none = none ∧
    (∀ s : String, (∀ c ∈ MBACommandsInfo, c.name ≠ s) →
        getMBACommandInfoByName (some s) = none) ∧
    (∀ (s : String) (i : Nat) (h : i < MBACommandsInfo.length),
        (MBACommandsInfo.get ⟨i, h⟩).name = s →
        (∀ (j : Nat) (hj : j < MBACommandsInfo.length), j < i →
            (MBACommandsInfo.get ⟨j, hj⟩).name ≠ s) →
        getMBACommandInfoByName (some s) = some (MBACommandsInfo.get ⟨i, h⟩)) ∧
    getMBACommandInfoByName (some "devicetype") = none ∧
    getMBACommandInfoByName (some "DeviceType") =
      some (MBACommandsInfo.get ⟨0, by decide⟩) := by
  refine ⟨rfl, ?_, ?_, by decide, by decide⟩
  · intro s hs
    rw [getMBACommandInfoByName]
    rw [List.find?_eq_none]
    intro c hc
    simpa using hs c hc
  · intro s i h hname hprev
    rw [getMBACommandInfoByName]
    refine find?_first_hit _ MBACommandsInfo i h (by simpa using hname) ?_
    intro j hj hji
    simpa using hprev j hj hji

/-- C10 witness: a name absent from the catalog is not found. -/
theorem getMBACommandInfoByName_exact_first_witness :
    getMBACommandInfoByName (some "zzz") = none :=
  getMBACommandInfoByName_exact_first.2.1 "zzz" (by decide)

/-- C3 (counterexample): on the command-not-found return path the runner
emits the trailing blank line but returns without performing the 100 ms
settle delay, so the delay does not happen on every return path. -/
theorem runMBACommand_notFound_skips_delay :
    (runMBACommand (some "Nope") 0 0 []).blankLine = true ∧
    (runMBACommand (some "Nope") 0 0 []).delay100 = false := by
  decide

/-- C3 (amended): on every return path the runner emits the trailing
blank line, and it performs the 100 ms settle delay exactly on the
successful paths - the failure paths (command not found, send failure,
read failure) return without the delay. -/
theorem runMBACommand_blankLine_and_delay :
    ∀ (cmdName : Option String) (sendResult readEndResult : Nat) (avail : List Nat),
      (runMBACommand cmdName sendResult readEndResult avail).blankLine = true ∧
      (runMBACommand cmdName sendResult readEndResult avail).delay100 =
        (runMBACommand cmdName sendResult readEndResult avail).ok := by
  intro cmdName sendResult readEndResult avail
  unfold runMBACommand
  cases getMBACommandInfoByName cmdName with
  | none => exact ⟨rfl, rfl⟩
  | some c =>
    dsimp only
    split
    · exact ⟨rfl, rfl⟩
    · split
      · split
        · exact ⟨rfl, rfl⟩
        · exact ⟨rfl, rfl⟩
      · exact ⟨rfl, rfl⟩

/-- C4: for every catalog command whose access mode is the write-only
marker `"W"`, the runner sends the catalog frame, performs no read phase
and no decoding, and returns success when the bus reports zero error;
for `SealDevice` the frame sent is `44 02 30 00`. -/
theorem runMBACommand_writeOnly :
    (∀ (name : String) (c : MBACommandInfo) (readEndResult : Nat) (avail : List Nat),
        getMBACommandInfoByName (some name) = some c → c.access = "W" →
        runMBACommand (some name) 0 readEndResult avail =
          ⟨true, true, true, some (sendFrame c), false, false⟩) ∧
    runMBACommand (some "SealDevice") 0 0 [] =
      ⟨true, true, true, some [0x44, 0x02, 0x30, 0x00], false, false⟩ := by
  constructor
  · intro name c readEndResult avail hlook hacc
    unfold runMBACommand
    rw [hlook]
    simp [sendMBACommand, hacc]
  · decide

/-- C4 witness: `SealDevice` (catalog entry 7) is write-only; the runner
skips the read phase and succeeds on a zero transport result. -/
theorem runMBACommand_writeOnly_witness :
    runMBACommand (some "SealDevice") 0 0 [] =
      ⟨true, true, true, some (sendFrame (MBACommandsInfo.get ⟨7, by decide⟩)),
       false, false⟩ :=
  runMBACommand_writeOnly.1 "SealDevice" (MBACommandsInfo.get ⟨7, by decide⟩) 0 []
    (by decide) (by decide)
